import Mathlib

/-!
Shallow embedding of the AWS-facing glue code of the aws-dataall repository:
`backend/dataall/aws/handlers/s3.py`, `backend/dataall/aws/handlers/athena.py`,
`backend/dataall/api/Objects/Tenant/resolvers.py`,
`deploy/stacks/param_store_stack.py` and
`backend/dataall/modules/omics/cdk/omics_stack.py`.

Python exceptions are modelled by an explicit error type and fallible code by
`Except`.  The results of external calls (boto3 sessions, AWS API responses,
database rows, environment variables) are oracle parameters of the embedded
functions, and the AWS requests actually issued by an operation are returned
as an explicit trace, so that claims about which calls happen, and in which
order, are statable.  Python argument binding is modelled explicitly where a
call site omits required parameters, because Python raises `TypeError` at the
call site in that case, before the callee body runs.
-/

/-- Python exception values relevant to the embedded code.  `clientError` is
botocore's `ClientError`; an `except ClientError` clause catches exactly that
constructor, while an `except Exception` clause catches every constructor. -/
inductive PyExc where
  | clientError (msg : String)
  | typeError (msg : String)
  | nameError (missing : String)
  | attributeError (msg : String)
  | objectNotFound (msg : String)
  | otherError (msg : String)
  deriving DecidableEq, Repr

/-- Test used by an `except ClientError` clause. -/
def PyExc.isClientError : PyExc → Bool
  | .clientError _ => true
  | _ => false

/-- One AWS API request actually issued by a handler, with the parameters the
source passes to boto3. -/
inductive AwsCall where
  | putObject (Bucket Body Key : String)
  | putBucketPolicy (Bucket Policy : String)
      (ConfirmRemoveSelfBucketAccess : Bool) (ExpectedBucketOwner : String)
  | getBucketPolicy (Bucket ExpectedBucketOwner : String)
  | getAccessPoint (AccountId Name : String)
  | createAccessPoint (AccountId Name Bucket : String)
  | deleteAccessPoint (AccountId Name : String)
  | getAccessPointPolicy (AccountId Name : String)
  | putAccessPointPolicy (AccountId Name Policy : String)
  | generatePresignedUrl (Bucket Key : String) (ExpiresIn : Nat)
  | getBucketAcl (Bucket ExpectedBucketOwner : String)
  | generatePresignedPost (Bucket Key : String) (ExpiresIn : Nat)
  | getWorkGroup (WorkGroup : String)
  | updateParameter (AwsAccountId region parameter_name parameter_value : String)
  deriving DecidableEq, Repr

/-- Data model of `models.DatasetStorageLocation`, with the fields the spec
lists and the handlers use: AWS account id, region, S3 bucket name, S3 prefix
and the boolean creation flag (plus the `locationUri` identifier). -/
structure Models.DatasetStorageLocation where
  locationUri : String
  AWSAccountId : String
  region : String
  S3BucketName : String
  S3Prefix : String
  locationCreated : Bool
  deriving DecidableEq, Repr

/-- Modelled from the spec: `models.Task` lives in the database model layer,
which is not under `src/`.  The spec: a `Task` is "an identifier plus a
`targetUri` referencing a domain entity (e.g., a storage location) and a path
string used to route to a handler". -/
structure Models.Task where
  taskUri : String
  targetUri : String
  path : String
  deriving DecidableEq, Repr

/-- Embeds `S3.client` (s3.py line 16).  The Python signature is
`client(account_id, region, client_type, config)` with four required
parameters and no defaults, so Python raises `TypeError` at the call site
whenever a call supplies fewer than all four, before the body runs.
Arguments are given as `Option` (`none` = not supplied by the call site).
The body obtains a boto3 session and client, which is external; its outcome
is the oracle `sessionResult`. -/
def S3.client (account_id region client_type config : Option String)
    (sessionResult : Except PyExc Unit) : Except PyExc Unit :=
  if account_id.isNone || region.isNone || client_type.isNone || config.isNone then
    .error (.typeError "client() missing required positional arguments")
  else
    sessionResult

/-- Model of the `Config(signature_version=..., s3=...)` value built by the
presigned-URL helpers; only its presence matters for argument binding. -/
def botoConfigS3v4 : String := "signature_version=s3v4, addressing_style=virtual"

/-- Names imported by the module `s3.py` (its `import` statements plus the
module-level bindings).  Used to model Python name resolution: `json` is not
among them, so evaluating `json` raises `NameError`. -/
def s3ModuleNames : List String :=
  ["logging", "ClientError", "Config", "db", "models", "Worker", "SessionHelper",
   "log", "S3"]

/-- Embeds `S3.get_presigned_url` (s3.py lines 25-48).  The `S3.client` call
supplies only `region` and `config`; it happens before the `try` block, so
its `TypeError` propagates.  Inside the `try`, a `ClientError` from
`generate_presigned_url` is logged and re-raised. -/
def S3.get_presigned_url (region bucket key : String)
    (sessionResult : Except PyExc Unit) (urlResult : Except PyExc String) :
    List AwsCall × Except PyExc String :=
  match S3.client none (some region) none (some botoConfigS3v4) sessionResult with
  | .error e => ([], .error e)
  | .ok _ =>
    match urlResult with
    | .error e => ([AwsCall.generatePresignedUrl bucket key (15 * 60)], .error e)
    | .ok url => ([AwsCall.generatePresignedUrl bucket key (15 * 60)], .ok url)

/-- Embeds the `try` block of `S3.get_presigned_post` (s3.py lines 57-69):
`get_bucket_acl`, then `generate_presigned_post`, then
`return json.dumps(response)`.  The name `json` is not among the imports of
the module (`s3ModuleNames`), so the success branch raises `NameError`, which
the `except ClientError` clause does not catch. -/
def S3.get_presigned_post_body (account_id bucket key : String)
    (aclResult : Except PyExc Unit) (postResult : Except PyExc String) :
    List AwsCall × Except PyExc String :=
  match aclResult with
  | .error e => ([AwsCall.getBucketAcl bucket account_id], .error e)
  | .ok _ =>
    match postResult with
    | .error e =>
        ([AwsCall.getBucketAcl bucket account_id,
          AwsCall.generatePresignedPost bucket key (15 * 60)], .error e)
    | .ok response =>
        ([AwsCall.getBucketAcl bucket account_id,
          AwsCall.generatePresignedPost bucket key (15 * 60)],
         if s3ModuleNames.contains "json" then .ok ("json.dumps of " ++ response)
         else .error (.nameError "json"))

/-- Embeds `S3.get_presigned_post` (s3.py lines 49-69).  The `S3.client` call
again supplies only `region` and `config`, so it raises `TypeError` before
any AWS request. -/
def S3.get_presigned_post (account_id region bucket key : String)
    (sessionResult : Except PyExc Unit)
    (aclResult : Except PyExc Unit) (postResult : Except PyExc String) :
    List AwsCall × Except PyExc String :=
  match S3.client none (some region) none (some botoConfigS3v4) sessionResult with
  | .error e => ([], .error e)
  | .ok _ => S3.get_presigned_post_body account_id bucket key aclResult postResult

/-- Modelled from the spec: `db.api.DatasetStorageLocation.get_location_by_uri`
is not under `src/`.  The spec invariant: "a `Task`'s target must resolve to
exactly one persisted entity before any AWS call is attempted; absence is a
hard failure, not a retry condition".  The database is modelled as a list of
rows keyed by `locationUri`; absence raises. -/
def DbApi.get_location_by_uri (db : List Models.DatasetStorageLocation)
    (uri : String) : Except PyExc Models.DatasetStorageLocation :=
  match db.find? (fun l => l.locationUri == uri) with
  | some location => .ok location
  | none => .error (.objectNotFound uri)

/-- Embeds `S3.create_bucket_prefix` (s3.py lines 81-100).  Returns the AWS
calls issued, the final state of the `location` row, and the outcome.  The
`S3.client` call at line 86 supplies `account_id`, `region` and `client_type`
but not the required `config`, so it raises `TypeError` inside the `try`; the
`except Exception` clause logs and re-raises.  `location.locationCreated` is
assigned only after a successful `put_object`. -/
def S3.create_bucket_prefix (location : Models.DatasetStorageLocation)
    (sessionResult : Except PyExc Unit) (putResult : Except PyExc String) :
    List AwsCall × Models.DatasetStorageLocation × Except PyExc Unit :=
  match S3.client (some location.AWSAccountId) (some location.region) (some "s3")
      none sessionResult with
  | .error e => ([], location, .error e)
  | .ok _ =>
    match putResult with
    | .error e =>
        ([AwsCall.putObject location.S3BucketName "" (location.S3Prefix ++ "/")],
         location, .error e)
    | .ok _ =>
        ([AwsCall.putObject location.S3BucketName "" (location.S3Prefix ++ "/")],
         { location with locationCreated := true }, .ok ())

/-- Embeds `S3.create_dataset_location` (s3.py lines 71-79), the handler
registered under "s3.prefix.create": resolve the task target through
`get_location_by_uri`, then call `create_bucket_prefix`, then return the
location. -/
def S3.create_dataset_location (db : List Models.DatasetStorageLocation)
    (task : Models.Task) (sessionResult : Except PyExc Unit)
    (putResult : Except PyExc String) :
    List AwsCall × Except PyExc Models.DatasetStorageLocation :=
  match DbApi.get_location_by_uri db task.targetUri with
  | .error e => ([], .error e)
  | .ok location =>
    let r := S3.create_bucket_prefix location sessionResult putResult
    (r.1, match r.2.2 with
          | .error e => .error e
          | .ok _ => .ok r.2.1)

/-- Embeds `S3.create_bucket_policy` (s3.py lines 102-119).  The `S3.client`
call at line 105 omits the required `config`, raising `TypeError` inside the
`try`; `except Exception` logs and re-raises. -/
def S3.create_bucket_policy (account_id region bucket_name policy : String)
    (sessionResult : Except PyExc Unit) (putResult : Except PyExc Unit) :
    List AwsCall × Except PyExc Unit :=
  match S3.client (some account_id) (some region) (some "s3") none sessionResult with
  | .error e => ([], .error e)
  | .ok _ =>
    match putResult with
    | .error e =>
        ([AwsCall.putBucketPolicy bucket_name policy false account_id], .error e)
    | .ok _ =>
        ([AwsCall.putBucketPolicy bucket_name policy false account_id], .ok ())

/-- Embeds `S3.get_bucket_policy` (s3.py lines 121-132).  `except Exception`
logs a warning and returns `None`; the `else` branch returns
`response["Policy"]` (modelled as the oracle string). -/
def S3.get_bucket_policy (account_id region bucket_name : String)
    (sessionResult : Except PyExc Unit) (apiResult : Except PyExc String) :
    List AwsCall × Option String :=
  match S3.client (some account_id) (some region) (some "s3") none sessionResult with
  | .error _ => ([], none)
  | .ok _ =>
    match apiResult with
    | .error _ => ([AwsCall.getBucketPolicy bucket_name account_id], none)
    | .ok policy => ([AwsCall.getBucketPolicy bucket_name account_id], some policy)

/-- Embeds `S3.get_bucket_access_point_arn` (s3.py lines 134-148).  The
client call passes three positional arguments, omitting the required
`config`; `except Exception` logs and returns `None`, the `else` branch
returns `access_point["AccessPointArn"]`. -/
def S3.get_bucket_access_point_arn (account_id region access_point_name : String)
    (sessionResult : Except PyExc Unit) (apiResult : Except PyExc String) :
    List AwsCall × Option String :=
  match S3.client (some account_id) (some region) (some "s3control") none
      sessionResult with
  | .error _ => ([], none)
  | .ok _ =>
    match apiResult with
    | .error _ => ([AwsCall.getAccessPoint account_id access_point_name], none)
    | .ok arn => ([AwsCall.getAccessPoint account_id access_point_name], some arn)

/-- Embeds `S3.create_bucket_access_point` (s3.py lines 150-165).
`except Exception` logs and re-raises; the `else` branch returns
`access_point["AccessPointArn"]`. -/
def S3.create_bucket_access_point
    (account_id region bucket_name access_point_name : String)
    (sessionResult : Except PyExc Unit) (apiResult : Except PyExc String) :
    List AwsCall × Except PyExc String :=
  match S3.client (some account_id) (some region) (some "s3control") none
      sessionResult with
  | .error e => ([], .error e)
  | .ok _ =>
    match apiResult with
    | .error e =>
        ([AwsCall.createAccessPoint account_id access_point_name bucket_name],
         .error e)
    | .ok arn =>
        ([AwsCall.createAccessPoint account_id access_point_name bucket_name],
         .ok arn)

/-- Embeds `S3.delete_bucket_access_point` (s3.py lines 167-179).
`except Exception` logs and re-raises. -/
def S3.delete_bucket_access_point (account_id region access_point_name : String)
    (sessionResult : Except PyExc Unit) (apiResult : Except PyExc Unit) :
    List AwsCall × Except PyExc Unit :=
  match S3.client (some account_id) (some region) (some "s3control") none
      sessionResult with
  | .error e => ([], .error e)
  | .ok _ =>
    match apiResult with
    | .error e => ([AwsCall.deleteAccessPoint account_id access_point_name], .error e)
    | .ok _ => ([AwsCall.deleteAccessPoint account_id access_point_name], .ok ())

/-- Embeds `S3.get_access_point_policy` (s3.py lines 181-195).
`except Exception` logs and returns `None`; `else` returns
`response["Policy"]`. -/
def S3.get_access_point_policy (account_id region access_point_name : String)
    (sessionResult : Except PyExc Unit) (apiResult : Except PyExc String) :
    List AwsCall × Option String :=
  match S3.client (some account_id) (some region) (some "s3control") none
      sessionResult with
  | .error _ => ([], none)
  | .ok _ =>
    match apiResult with
    | .error _ =>
        ([AwsCall.getAccessPointPolicy account_id access_point_name], none)
    | .ok policy =>
        ([AwsCall.getAccessPointPolicy account_id access_point_name], some policy)

/-- Embeds `S3.attach_access_point_policy` (s3.py lines 197-210).
`except Exception` logs and re-raises. -/
def S3.attach_access_point_policy
    (account_id region access_point_name policy : String)
    (sessionResult : Except PyExc Unit) (apiResult : Except PyExc Unit) :
    List AwsCall × Except PyExc Unit :=
  match S3.client (some account_id) (some region) (some "s3control") none
      sessionResult with
  | .error e => ([], .error e)
  | .ok _ =>
    match apiResult with
    | .error e =>
        ([AwsCall.putAccessPointPolicy account_id access_point_name policy],
         .error e)
    | .ok _ =>
        ([AwsCall.putAccessPointPolicy account_id access_point_name policy],
         .ok ())

/-- A value of a Python dict literal: strings, lists and dicts (the only
shapes `generate_access_point_policy_template` builds). -/
inductive JVal where
  | str (s : String)
  | arr (xs : List JVal)
  | obj (fields : List (String × JVal))
  deriving Repr

/-- Dict lookup on a `JVal`. -/
def JVal.get (j : JVal) (k : String) : Option JVal :=
  match j with
  | .obj fields => fields.lookup k
  | _ => none

/-- Embeds `S3.generate_access_point_policy_template` (s3.py lines 212-252),
a pure function from `principal_id`, `access_point_arn` and `s3_prefix` to
the policy dict, transcribed key for key.  Note the first statement has a
plain string `Resource` while the second has a one-element list. -/
def S3.generate_access_point_policy_template
    (principal_id access_point_arn s3Prefix : String) : JVal :=
  .obj
    [("Version", .str "2012-10-17"),
     ("Statement", .arr
       [.obj
          [("Sid", .str (principal_id ++ "0")),
           ("Effect", .str "Allow"),
           ("Principal", .obj [("AWS", .str "*")]),
           ("Action", .str "s3:ListBucket"),
           ("Resource", .str access_point_arn),
           ("Condition", .obj
             [("StringLike", .obj
               [("s3:prefix", .arr [.str (s3Prefix ++ "/*")]),
                ("aws:userId", .arr [.str (principal_id ++ ":*")])])])],
        .obj
          [("Sid", .str (principal_id ++ "1")),
           ("Effect", .str "Allow"),
           ("Principal", .obj [("AWS", .str "*")]),
           ("Action", .str "s3:GetObject"),
           ("Resource", .arr [.str (access_point_arn ++ "/object/" ++ s3Prefix ++ "/*")]),
           ("Condition", .obj
             [("StringLike", .obj
               [("aws:userId", .arr [.str (principal_id ++ ":*")])])])]])]

/-- A Python value that `Athena.get_workgroup` can return: `None`, the
`workgroup` name argument (a string), or the `get_work_group` response dict
(modelled opaquely by its payload). -/
inductive AthenaValue where
  | pyNone
  | str (s : String)
  | response (payload : String)
  deriving DecidableEq, Repr

/-- Embeds `Athena.get_workgroup` (athena.py lines 15-25).  The `try` block
covers `Athena.client` (a session, external: oracle `sessionResult`) and
`get_work_group` (oracle `apiResult`).  Only `ClientError` is caught; the
handler logs and falls through to `return workgroup`, where the local
`workgroup` still holds the name argument because the assignment at line 19
did not complete.  Other exceptions propagate; on success the response is
returned. -/
def Athena.get_workgroup (AwsAccountId region workgroup : String)
    (role : Option String) (sessionResult : Except PyExc Unit)
    (apiResult : Except PyExc String) :
    List AwsCall × Except PyExc AthenaValue :=
  match sessionResult with
  | .error e =>
      ([], if e.isClientError then .ok (.str workgroup) else .error e)
  | .ok _ =>
    match apiResult with
    | .error e =>
        ([AwsCall.getWorkGroup workgroup],
         if e.isClientError then .ok (.str workgroup) else .error e)
    | .ok r => ([AwsCall.getWorkGroup workgroup], .ok (.response r))

/-- Handler functions registered with the worker dispatcher in `src/`. -/
inductive HandlerKey where
  | createDatasetLocation
  deriving DecidableEq, Repr

/-- Modelled from the spec: the `Worker` dispatcher
(`dataall.aws.handlers.service_handlers`) is not under `src/`.  Per the spec
it "registers handler functions under string keys"; the only registration
decorator in `src/` is `@Worker.handler(path="s3.prefix.create")` on
`S3.create_dataset_location` (s3.py line 72). -/
def Worker.handlers : List (String × HandlerKey) :=
  [("s3.prefix.create", HandlerKey.createDatasetLocation)]

/-- Modelled from the spec: dispatch of one task.  "On receiving a task,
looks up the handler by path and invokes it with a database connection and
the task payload", with "a single synchronous call per task", "no retry
policy".  The first component counts handler invocations. -/
def Worker.process (db : List Models.DatasetStorageLocation) (task : Models.Task)
    (sessionResult : Except PyExc Unit) (putResult : Except PyExc String) :
    Nat × (List AwsCall × Except PyExc Models.DatasetStorageLocation) :=
  match Worker.handlers.lookup task.path with
  | some HandlerKey.createDatasetLocation =>
      (1, S3.create_dataset_location db task sessionResult putResult)
  | none =>
      (0, ([], .error (.otherError ("no handler for path " ++ task.path))))

/-- Embeds `update_ssm_parameter` (Tenant/resolvers.py lines 41-47).
`envGet` models `os.getenv`; `current_account` models
`SessionHelper.get_account()` (external).  `ParameterStoreManager.
update_parameter` is not under `src/`; modelled from the spec ("SSM parameter
CRUD" over "SSM parameter paths of the form /dataall/env/...") as a single
recorded `updateParameter` call whose response is the oracle
`updateResult`. -/
def update_ssm_parameter (name value : String) (envGet : String → Option String)
    (current_account : String) (updateResult : Except PyExc String) :
    List AwsCall × Except PyExc String :=
  let region := (envGet "AWS_REGION").getD "eu-west-1"
  let envname := (envGet "envname").getD "local"
  ([AwsCall.updateParameter current_account region
      ("/dataall/" ++ envname ++ "/quicksightmonitoring/" ++ name) value],
   updateResult)

/-- An SSM parameter created by `ParamStoreStack`: its name and value. -/
structure SSMParam where
  name : String
  value : String
  deriving DecidableEq, Repr

/-- Embeds `ParamStoreStack.__init__` (param_store_stack.py lines 14-122) as
the list of SSM `StringParameter`s it creates, in source order.
`custom_domain` is the Python dict argument modelled by its
`hosted_zone_name` entry (`none` = falsy argument).  `externalIdValue`
abstracts the value computed by the try/except chain at lines 105-113 (a CDK
parameter lookup whose attribute name is misspelled, a secrets-manager
lookup, or random generation, all external or always-caught); the chain
always binds a value, so the externalId parameter is created on every
instantiation. -/
def ParamStoreStack.parameters (envname resourcePrefixValue : String)
    (custom_domain : Option String) (enable_cw_canaries quicksight_enabled : Bool)
    (shared_dashboard_sessions : String) (enable_pivot_role_auto_create : Bool)
    (pivot_role_name externalIdValue : String) : List SSMParam :=
  [⟨"/dataall/" ++ envname ++ "/resourcePrefix", resourcePrefixValue⟩]
  ++ (match custom_domain with
      | none => []
      | some hz =>
        [⟨"/dataall/" ++ envname ++ "/frontend/custom_domain_name", hz⟩,
         ⟨"/dataall/" ++ envname ++ "/userguide/custom_domain_name",
          "userguide." ++ hz⟩])
  ++ (if enable_cw_canaries then
        [⟨"/dataall/" ++ envname ++ "/canary/environment_account",
          "updateme(e.g: 1234xxxx)"⟩,
         ⟨"/dataall/" ++ envname ++ "/canary/environment_region",
          "updateme(e.g: eu-west-1)"⟩]
      else [])
  ++ (if quicksight_enabled then
        [⟨"/dataall/" ++ envname ++ "/quicksightmonitoring/VPCConnectionId",
          "updateme"⟩,
         ⟨"/dataall/" ++ envname ++ "/quicksightmonitoring/DashboardId",
          "updateme"⟩]
      else [])
  ++ [⟨"/dataall/" ++ envname ++ "/quicksight/sharedDashboardsSessions",
       shared_dashboard_sessions⟩,
      ⟨"/dataall/" ++ envname ++ "/pivotRole/enablePivotRoleAutoCreate",
       if enable_pivot_role_auto_create then "True" else "False"⟩,
      ⟨"/dataall/" ++ envname ++ "/pivotRole/pivotRoleName", pivot_role_name⟩,
      ⟨"/dataall/" ++ envname ++ "/pivotRole/externalId", externalIdValue⟩]

/-- Data model of `OmicsPipeline` (spec section 3: pipeline name, URI, S3
input/output bucket and prefix, owning SAML group), with the extra fields the
stack reads (`label`, `description`, `environmentUri`). -/
structure Models.OmicsPipeline where
  OmicsPipelineUri : String
  environmentUri : String
  name : String
  label : String
  description : String
  SamlGroupName : String
  S3InputBucket : String
  S3InputPrefix : String
  S3OutputBucket : String
  S3OutputPrefix : String
  deriving DecidableEq, Repr

/-- Data model of `Environment` (spec section 3: AWS account id, region,
resource prefix, owning group), with the fields the omics stack reads. -/
structure Models.Environment where
  environmentUri : String
  name : String
  AwsAccountId : String
  region : String
  resourcePrefix : String
  deriving DecidableEq, Repr

/-- A file-system side effect of the omics stack generator. -/
inductive FileOp where
  | truncateFile (path : String)
  | writeFile (path content : String)
  | removeFile (path : String)
  | makeArchive (base format root : String)
  | moveFile (src dst : String)
  deriving DecidableEq, Repr

/-- Names imported or bound at module level in `omics_stack.py` (lines 1-31
plus the module-level definitions).  `textwrap` is not among them, although
`write_cdk_app_file` uses it at line 320. -/
def omicsModuleNames : List String :=
  ["logging", "os", "shutil", "sagemaker", "ec2", "kms", "iam", "codecommit",
   "codebuild", "pipelines", "Stack", "CfnOutput", "Asset", "OmicsPipeline",
   "models", "EnvironmentGroup", "stack", "Engine", "get_engine", "Environment",
   "CDKNagUtil", "TagsUtil", "logger", "OmicsPipelineStack", "zip_directory",
   "cleanup_zip_directory", "write_cdk_app_file"]

/-- Attributes of the class `OmicsPipelineStack` as written: its methods and
`module_name`.  `write_cdk_app_file`, `cleanup_zip_directory` and
`zip_directory` are NOT class attributes: they are defined at module level
(omics_stack.py lines 230-321, dedented out of the class body). -/
def OmicsPipelineStack.classAttrs : List String :=
  ["module_name", "get_engine", "get_target", "get_pipeline_environment",
   "get_env_group"]

/-- Python attribute lookup `OmicsPipelineStack.<name>`: `AttributeError`
when the class (as written) has no such attribute. -/
def OmicsPipelineStack.getattr (attr : String) : Except PyExc Unit :=
  if OmicsPipelineStack.classAttrs.contains attr then .ok ()
  else .error (.attributeError
    ("type object OmicsPipelineStack has no attribute " ++ attr))

/-- Embeds the method `get_engine(self)` (omics_stack.py lines 44-47): its
signature accepts no keyword arguments, so Python raises `TypeError` at any
call that passes one; called without extras it obtains the database engine
(external, modelled as success). -/
def OmicsPipelineStack.get_engine (kwargs : List (String × String)) :
    Except PyExc Unit :=
  match kwargs with
  | [] => .ok ()
  | (k, _) :: _ =>
      .error (.typeError ("get_engine() got an unexpected keyword argument " ++ k))

/-- Embeds `get_pipeline_environment` (omics_stack.py lines 55-61): it calls
`self.get_engine(envname=envname)`, which raises `TypeError` since the method
takes no keyword arguments; were an engine obtained, it would resolve the
pipeline environment (`envLookup` models `Environment.get_environment_by_uri`). -/
def OmicsPipelineStack.get_pipeline_environment (envname : String)
    (envLookup : String → Option Models.Environment)
    (pipeline : Models.OmicsPipeline) : Except PyExc Models.Environment :=
  match OmicsPipelineStack.get_engine [("envname", envname)] with
  | .error e => .error e
  | .ok _ =>
    match envLookup pipeline.environmentUri with
    | some env => .ok env
    | none => .error (.objectNotFound pipeline.environmentUri)

/-- The blueprint directory path computed at omics_stack.py lines 94-100,
modelled as its trailing fixed components. -/
def omicsCodeDirPath : String := "dataall/modules/omics/blueprints/omics_pipeline"

/-- Renders the `app` template string of `write_cdk_app_file` (omics_stack.py
lines 249-318): the literal template text is abstracted to the sequence of
values interpolated into it, in source order. -/
def render_app_py (pipeline : Models.OmicsPipeline)
    (environment : Models.Environment) : String :=
  "pipeline_name=" ++ pipeline.name
  ++ ";pipeline_uri=" ++ pipeline.OmicsPipelineUri
  ++ ";environment_name=" ++ environment.name
  ++ ";environment_uri=" ++ environment.environmentUri
  ++ ";environment_resourcePrefix=" ++ environment.resourcePrefix
  ++ ";input_bucket=" ++ pipeline.S3InputBucket
  ++ ";input_prefix=" ++ pipeline.S3InputPrefix
  ++ ";output_bucket=" ++ pipeline.S3OutputBucket
  ++ ";output_prefix=" ++ pipeline.S3OutputPrefix
  ++ ";resource_prefix=" ++
    (environment.resourcePrefix ++ "-omics-" ++ pipeline.OmicsPipelineUri).take 63
  ++ ";team=" ++ pipeline.SamlGroupName

/-- Embeds the module-level `write_cdk_app_file` (omics_stack.py lines
247-321).  The template renders first (pure); `open(..., "w")` then
creates/truncates `app.py`; the write call evaluates `textwrap`, which is not
among `omicsModuleNames`, so `NameError` is raised after the truncation. -/
def write_cdk_app_file (code_dir_path : String)
    (pipeline : Models.OmicsPipeline) (environment : Models.Environment) :
    List FileOp × Except PyExc Unit :=
  let app := render_app_py pipeline environment
  if omicsModuleNames.contains "textwrap" then
    ([FileOp.writeFile (code_dir_path ++ "/app.py") app], .ok ())
  else
    ([FileOp.truncateFile (code_dir_path ++ "/app.py")],
     .error (.nameError "textwrap"))

/-- Embeds the module-level `cleanup_zip_directory` (omics_stack.py lines
239-244): removes `code.zip` when present, otherwise only logs.  `zipExists`
models `os.path.isfile`. -/
def cleanup_zip_directory (code_dir_path : String) (zipExists : Bool) :
    List FileOp :=
  if zipExists then [FileOp.removeFile (code_dir_path ++ "/code.zip")] else []

/-- Embeds the module-level `zip_directory` (omics_stack.py lines 230-236):
`make_archive` then `move`; any exception is logged and swallowed
(`archiveResult` is the oracle for the external archive operation). -/
def zip_directory (code_dir_path : String) (archiveResult : Except PyExc Unit) :
    List FileOp :=
  match archiveResult with
  | .ok _ =>
      [FileOp.makeArchive "code" "zip" code_dir_path,
       FileOp.moveFile "code.zip" (code_dir_path ++ "/code.zip")]
  | .error _ => []

/-- Embeds `OmicsPipelineStack.__init__` (omics_stack.py lines 74-227),
returning the file operations performed and the outcome.  `pipelineLookup`
models `session.query(OmicsPipeline).get` inside `get_target` (`none` = no
row, in which case `.label` on `None` in the description f-string raises
`AttributeError`); `envLookup` models `Environment.get_environment_by_uri`;
`envGroupResult` models `get_env_group`.  The steps follow source order:
description (via `get_target`), `get_target`, `get_pipeline_environment`
(which raises `TypeError`: see `OmicsPipelineStack.get_engine`),
`get_env_group`, then the attribute accesses
`OmicsPipelineStack.write_cdk_app_file`, `.cleanup_zip_directory`,
`.zip_directory` (each an `AttributeError`: the functions are module-level),
then CDK constructs (external, no file operations). -/
def OmicsPipelineStack.init (target_uri : String)
    (pipelineLookup : String → Option Models.OmicsPipeline)
    (envname : String) (envLookup : String → Option Models.Environment)
    (envGroupResult : Except PyExc Unit) (zipExists : Bool)
    (archiveResult : Except PyExc Unit) : List FileOp × Except PyExc Unit :=
  match pipelineLookup target_uri with
  | none => ([], .error (.attributeError "NoneType object has no attribute label"))
  | some pipeline =>
    match OmicsPipelineStack.get_pipeline_environment envname envLookup pipeline with
    | .error e => ([], .error e)
    | .ok environment =>
      match envGroupResult with
      | .error e => ([], .error e)
      | .ok _ =>
        match OmicsPipelineStack.getattr "write_cdk_app_file" with
        | .error e => ([], .error e)
        | .ok _ =>
          let w := write_cdk_app_file omicsCodeDirPath pipeline environment
          match w.2 with
          | .error e => (w.1, .error e)
          | .ok _ =>
            match OmicsPipelineStack.getattr "cleanup_zip_directory" with
            | .error e => (w.1, .error e)
            | .ok _ =>
              let c := cleanup_zip_directory omicsCodeDirPath zipExists
              match OmicsPipelineStack.getattr "zip_directory" with
              | .error e => (w.1 ++ c, .error e)
              | .ok _ =>
                let z := zip_directory omicsCodeDirPath archiveResult
                (w.1 ++ c ++ z, .ok ())

/-- Left cancellation for string append, used to separate SSM parameter names
that share the common "/dataall/envname" head. -/
theorem strAppendRightInj (a b c : String) : a ++ b = a ++ c ↔ b = c := by
  constructor
  · intro h
    have h2 : a.data ++ b.data = a.data ++ c.data := by
      have h1 := congrArg String.data h
      simpa [String.data_append] using h1
    exact String.ext (List.append_cancel_left h2)
  · intro h
    rw [h]

/-- Claim C1 counterexample: at a concrete input where the underlying AWS
call raises a `ClientError`, `Athena.get_workgroup` does not return `None`
(and does not propagate): it returns its `workgroup` name argument as a
string, refuting the claim that every listed read-only lookup returns `None`
on failure. -/
theorem athena_get_workgroup_client_error_returns_name :
    (Athena.get_workgroup "111122223333" "eu-west-1" "primary" none
      (.ok ()) (.error (.clientError "AccessDenied"))).2
      = .ok (AthenaValue.str "primary")
    ∧ AthenaValue.str "primary" ≠ AthenaValue.pyNone := by
  exact ⟨rfl, by decide⟩

/-- Claim C1 (amended): the S3 read-only lookups (`get_bucket_policy`,
`get_bucket_access_point_arn`, `get_access_point_policy`) log and return
`None` whenever their `try` block raises, which in this code is on every
invocation, because `S3.client` is called without its required `config`
argument; `Athena.get_workgroup`, by contrast, catches only `ClientError`,
returning its `workgroup` name argument unchanged, and propagates any
non-`ClientError` exception; on success it returns the response. -/
theorem read_lookup_failure_behavior
    (account_id region nm wg msg payload : String) (role : Option String)
    (sessionResult : Except PyExc Unit) (apiResult : Except PyExc String) :
    (S3.get_bucket_policy account_id region nm sessionResult apiResult).2 = none
    ∧ (S3.get_bucket_access_point_arn account_id region nm sessionResult
        apiResult).2 = none
    ∧ (S3.get_access_point_policy account_id region nm sessionResult
        apiResult).2 = none
    ∧ (Athena.get_workgroup account_id region wg role (.ok ())
        (.error (.clientError msg))).2 = .ok (.str wg)
    ∧ (Athena.get_workgroup account_id region wg role
        (.error (.clientError msg)) apiResult).2 = .ok (.str wg)
    ∧ (Athena.get_workgroup account_id region wg role (.ok ())
        (.error (.typeError msg))).2 = .error (.typeError msg)
    ∧ (Athena.get_workgroup account_id region wg role (.ok ())
        (.ok payload)).2 = .ok (.response payload) := by
  refine ⟨?_, ?_, ?_, rfl, rfl, rfl, rfl⟩ <;>
    cases sessionResult <;> cases apiResult <;> rfl

/-- Claim C2: in this code every mutating S3 operation raises `TypeError`
from the `S3.client` call (which omits the required `config` parameter)
before issuing its AWS request, whatever the would-be AWS outcome; no AWS
exception can therefore ever be logged and re-raised.  The empty call trace
and the uniform `TypeError` at every input exhibit the divergence from the
claim. -/
theorem mutating_s3_ops_typeerror_without_aws_call
    (account_id region bucket_name access_point_name policy : String)
    (location : Models.DatasetStorageLocation)
    (sessionResult : Except PyExc Unit)
    (putU : Except PyExc Unit) (putS : Except PyExc String) :
    S3.create_bucket_prefix location sessionResult putS
      = ([], location,
         .error (.typeError "client() missing required positional arguments"))
    ∧ S3.create_bucket_policy account_id region bucket_name policy
        sessionResult putU
      = ([], .error (.typeError "client() missing required positional arguments"))
    ∧ S3.create_bucket_access_point account_id region bucket_name
        access_point_name sessionResult putS
      = ([], .error (.typeError "client() missing required positional arguments"))
    ∧ S3.delete_bucket_access_point account_id region access_point_name
        sessionResult putU
      = ([], .error (.typeError "client() missing required positional arguments"))
    ∧ S3.attach_access_point_policy account_id region access_point_name policy
        sessionResult putU
      = ([], .error (.typeError "client() missing required positional arguments")) :=
  ⟨rfl, rfl, rfl, rfl, rfl⟩

/-- Claim C3: in this code `S3.create_bucket_prefix` never issues a
`put_object` call, because the `S3.client` call omits the required `config`
argument and raises `TypeError` first; the exception is re-raised and the
location row is returned unchanged (in particular `locationCreated` is never
set to `True`), at every input and whatever the would-be `put_object`
outcome. -/
theorem create_bucket_prefix_issues_no_put_object
    (location : Models.DatasetStorageLocation)
    (sessionResult : Except PyExc Unit) (putResult : Except PyExc String) :
    S3.create_bucket_prefix location sessionResult putResult
      = ([], location,
         .error (.typeError "client() missing required positional arguments")) :=
  rfl

/-- Claim C9: `S3.get_presigned_url` propagates a `TypeError` from its
`S3.client` call (which omits the required `account_id` and `client_type`
arguments) on every invocation, before any AWS request is made, so it never
returns a presigned URL; `S3.get_presigned_post` fails the same way, and its
success branch is unreachable independently: the module does not import
`json`, so completing both AWS calls still raises `NameError`. -/
theorem presigned_url_and_post_always_fail
    (account_id region bucket key response : String)
    (sessionResult aclResult : Except PyExc Unit)
    (urlResult postResult : Except PyExc String) :
    S3.get_presigned_url region bucket key sessionResult urlResult
      = ([], .error (.typeError "client() missing required positional arguments"))
    ∧ S3.get_presigned_post account_id region bucket key sessionResult
        aclResult postResult
      = ([], .error (.typeError "client() missing required positional arguments"))
    ∧ s3ModuleNames.contains "json" = false
    ∧ (S3.get_presigned_post_body account_id bucket key (.ok ())
        (.ok response)).2 = .error (.nameError "json") :=
  ⟨rfl, rfl, rfl, rfl⟩

/-- Claim C10: `generate_access_point_policy_template` is a pure function;
for every `principal_id`, `access_point_arn` and `s3_prefix` the returned
dict has Version 2012-10-17 and exactly two statements, both with Effect
Allow and Principal AWS *: the first with Sid `principal_id ++ "0"`, action
s3:ListBucket on the access point ARN, conditioned on the s3:prefix pattern
`s3_prefix ++ "/*"` and the aws:userId pattern `principal_id ++ ":*"`; the
second with Sid `principal_id ++ "1"`, action s3:GetObject on
`arn ++ "/object/" ++ s3_prefix ++ "/*"`, conditioned on the same aws:userId
pattern. -/
theorem generate_access_point_policy_template_shape
    (principal_id access_point_arn s3Prefix : String) :
    ∃ s0 s1,
      ( S3.generate_access_point_policy_template principal_id access_point_arn
          s3Prefix).get "Version" = some (.str "2012-10-17")
      ∧ ( S3.generate_access_point_policy_template principal_id access_point_arn
          s3Prefix).get "Statement" = some (.arr [s0, s1])
      ∧ JVal.get s0 "Sid" = some (.str (principal_id ++ "0"))
      ∧ JVal.get s0 "Effect" = some (.str "Allow")
      ∧ JVal.get s0 "Principal" = some (.obj [("AWS", .str "*")])
      ∧ JVal.get s0 "Action" = some (.str "s3:ListBucket")
      ∧ JVal.get s0 "Resource" = some (.str access_point_arn)
      ∧ JVal.get s0 "Condition" = some (.obj
          [("StringLike", .obj
            [("s3:prefix", .arr [.str (s3Prefix ++ "/*")]),
             ("aws:userId", .arr [.str (principal_id ++ ":*")])])])
      ∧ JVal.get s1 "Sid" = some (.str (principal_id ++ "1"))
      ∧ JVal.get s1 "Effect" = some (.str "Allow")
      ∧ JVal.get s1 "Principal" = some (.obj [("AWS", .str "*")])
      ∧ JVal.get s1 "Action" = some (.str "s3:GetObject")
      ∧ JVal.get s1 "Resource" = some (.arr
          [.str (access_point_arn ++ "/object/" ++ s3Prefix ++ "/*")])
      ∧ JVal.get s1 "Condition" = some (.obj
          [("StringLike", .obj
            [("aws:userId", .arr [.str (principal_id ++ ":*")])])]) := by
  refine ⟨_, _, rfl, rfl, rfl, rfl, rfl, rfl, rfl, rfl, rfl, rfl, rfl, rfl, rfl, rfl⟩

/-- Claim C6: `update_ssm_parameter` issues exactly one SSM parameter update,
whose name is `"/dataall/" ++ envname ++ "/quicksightmonitoring/" ++ name`
with `envname` read from the environment (default "local") and the region
from AWS_REGION (default "eu-west-1"), with the given value, and returns the
parameter store manager response unchanged. -/
theorem update_ssm_parameter_single_update
    (name value current_account : String) (envGet : String → Option String)
    (updateResult : Except PyExc String) :
    (update_ssm_parameter name value envGet current_account updateResult).1
      = [AwsCall.updateParameter current_account
          ((envGet "AWS_REGION").getD "eu-west-1")
          ("/dataall/" ++ ((envGet "envname").getD "local")
            ++ "/quicksightmonitoring/" ++ name) value]
    ∧ (update_ssm_parameter name value envGet current_account updateResult).2
      = updateResult :=
  ⟨rfl, rfl⟩

/-- Claim C4: `create_dataset_location` resolves the task `targetUri` through
`get_location_by_uri` before any AWS activity: when no persisted location
matches, it fails with the lookup exception and issues no AWS call at all;
when one matches, every AWS call it issues is exactly a call of
`create_bucket_prefix` on the resolved location. -/
theorem create_dataset_location_resolves_target_first
    (db : List Models.DatasetStorageLocation) (task : Models.Task)
    (sessionResult : Except PyExc Unit) (putResult : Except PyExc String) :
    (db.find? (fun l => l.locationUri == task.targetUri) = none →
      S3.create_dataset_location db task sessionResult putResult
        = ([], .error (.objectNotFound task.targetUri)))
    ∧ ∀ location,
        db.find? (fun l => l.locationUri == task.targetUri) = some location →
        (S3.create_dataset_location db task sessionResult putResult).1
          = ( S3.create_bucket_prefix location sessionResult putResult).1 := by
  constructor
  · intro h
    simp [S3.create_dataset_location, DbApi.get_location_by_uri, h]
  · intro location h
    simp [S3.create_dataset_location, DbApi.get_location_by_uri, h]

/-- Witness for C4 at a concrete input: dispatching against an empty database
fails with the lookup error and an empty AWS call trace. -/
theorem create_dataset_location_resolves_target_first_witness :
    S3.create_dataset_location [] ⟨"task-1", "loc-1", "s3.prefix.create"⟩
      (.ok ()) (.ok "etag")
      = ([], .error (.objectNotFound "loc-1")) :=
  (create_dataset_location_resolves_target_first []
    ⟨"task-1", "loc-1", "s3.prefix.create"⟩ (.ok ()) (.ok "etag")).1 rfl

/-- Claim C5: `create_dataset_location` is registered under the key
"s3.prefix.create", and a task with that path is dispatched to it exactly
once, synchronously, with the database and the task; but at a concrete input
whose target resolves, the handler raises `TypeError` (from the `S3.client`
call missing its `config` argument) instead of returning the resolved
`DatasetStorageLocation`. -/
theorem worker_dispatch_s3_prefix_create
    (taskUri targetUri : String) (db : List Models.DatasetStorageLocation)
    (sessionResult : Except PyExc Unit) (putResult : Except PyExc String) :
    Worker.handlers.lookup "s3.prefix.create"
      = some HandlerKey.createDatasetLocation
    ∧ Worker.process db ⟨taskUri, targetUri, "s3.prefix.create"⟩ sessionResult
        putResult
      = (1, S3.create_dataset_location db
          ⟨taskUri, targetUri, "s3.prefix.create"⟩ sessionResult putResult)
    ∧ (Worker.process
        [⟨"loc-1", "111122223333", "eu-west-1", "bucket", "data", false⟩]
        ⟨"task-1", "loc-1", "s3.prefix.create"⟩ (.ok ()) (.ok "etag")).2
      = ([], .error (.typeError "client() missing required positional arguments")) :=
  ⟨rfl, rfl, rfl⟩

/-- Claim C7: every SSM parameter created by `ParamStoreStack` has a name of
the form `"/dataall/" ++ envname ++ "/" ++ rest`; the resourcePrefix,
sharedDashboardsSessions, enablePivotRoleAutoCreate, pivotRoleName and
externalId parameters are created on every instantiation, and the
custom-domain, canary and quicksight-monitoring parameters appear if and only
if `custom_domain`, `enable_cw_canaries` and `quicksight_enabled`
respectively are set. -/
theorem paramstore_stack_parameter_names
    (envname resourcePrefixValue : String) (custom_domain : Option String)
    (enable_cw_canaries quicksight_enabled : Bool)
    (shared_dashboard_sessions : String) (enable_pivot_role_auto_create : Bool)
    (pivot_role_name externalIdValue : String) (ps : List SSMParam)
    (hps : ps = ParamStoreStack.parameters envname resourcePrefixValue
      custom_domain enable_cw_canaries quicksight_enabled
      shared_dashboard_sessions enable_pivot_role_auto_create pivot_role_name
      externalIdValue) :
    (∀ p ∈ ps, ∃ rest, p.name = "/dataall/" ++ envname ++ ("/" ++ rest))
    ∧ (⟨"/dataall/" ++ envname ++ "/resourcePrefix", resourcePrefixValue⟩ :
        SSMParam) ∈ ps
    ∧ (⟨"/dataall/" ++ envname ++ "/quicksight/sharedDashboardsSessions",
        shared_dashboard_sessions⟩ : SSMParam) ∈ ps
    ∧ (⟨"/dataall/" ++ envname ++ "/pivotRole/enablePivotRoleAutoCreate",
        if enable_pivot_role_auto_create then "True" else "False"⟩ :
        SSMParam) ∈ ps
    ∧ (⟨"/dataall/" ++ envname ++ "/pivotRole/pivotRoleName",
        pivot_role_name⟩ : SSMParam) ∈ ps
    ∧ (⟨"/dataall/" ++ envname ++ "/pivotRole/externalId",
        externalIdValue⟩ : SSMParam) ∈ ps
    ∧ ((∃ v, (⟨"/dataall/" ++ envname ++ "/frontend/custom_domain_name", v⟩ :
        SSMParam) ∈ ps) ↔ custom_domain.isSome = true)
    ∧ ((⟨"/dataall/" ++ envname ++ "/canary/environment_account",
        "updateme(e.g: 1234xxxx)"⟩ : SSMParam) ∈ ps ↔ enable_cw_canaries = true)
    ∧ ((⟨"/dataall/" ++ envname ++ "/quicksightmonitoring/VPCConnectionId",
        "updateme"⟩ : SSMParam) ∈ ps ↔ quicksight_enabled = true) := by
  subst hps
  refine ⟨?_, ?_, ?_, ?_, ?_, ?_, ?_, ?_, ?_⟩
  · intro p hp
    simp only [ParamStoreStack.parameters, List.mem_append, List.mem_cons,
      List.not_mem_nil, or_false] at hp
    rcases hp with (((hp | hp) | hp) | hp) | (hp | hp | hp | hp)
    · subst hp; exact ⟨"resourcePrefix", rfl⟩
    · rcases custom_domain with _ | hz
      · simp at hp
      · simp only [List.mem_cons, List.not_mem_nil, or_false] at hp
        rcases hp with hp | hp
        · subst hp; exact ⟨"frontend/custom_domain_name", rfl⟩
        · subst hp; exact ⟨"userguide/custom_domain_name", rfl⟩
    · cases enable_cw_canaries
      · simp at hp
      · simp at hp
        rcases hp with hp | hp
        · subst hp; exact ⟨"canary/environment_account", rfl⟩
        · subst hp; exact ⟨"canary/environment_region", rfl⟩
    · cases quicksight_enabled
      · simp at hp
      · simp at hp
        rcases hp with hp | hp
        · subst hp; exact ⟨"quicksightmonitoring/VPCConnectionId", rfl⟩
        · subst hp; exact ⟨"quicksightmonitoring/DashboardId", rfl⟩
    · subst hp; exact ⟨"quicksight/sharedDashboardsSessions", rfl⟩
    · subst hp; exact ⟨"pivotRole/enablePivotRoleAutoCreate", rfl⟩
    · subst hp; exact ⟨"pivotRole/pivotRoleName", rfl⟩
    · subst hp; exact ⟨"pivotRole/externalId", rfl⟩
  · simp [ParamStoreStack.parameters]
  · simp [ParamStoreStack.parameters]
  · simp [ParamStoreStack.parameters]
  · simp [ParamStoreStack.parameters]
  · simp [ParamStoreStack.parameters]
  · rcases custom_domain with _ | hz <;> cases enable_cw_canaries <;>
      cases quicksight_enabled <;>
      simp [ParamStoreStack.parameters, strAppendRightInj]
  · rcases custom_domain with _ | hz <;> cases enable_cw_canaries <;>
      cases quicksight_enabled <;>
      simp [ParamStoreStack.parameters, strAppendRightInj]
  · rcases custom_domain with _ | hz <;> cases enable_cw_canaries <;>
      cases quicksight_enabled <;>
      simp [ParamStoreStack.parameters, strAppendRightInj]

/-- Witness for C7 at a concrete input: the resourcePrefix parameter of a
"dev" instantiation has a name extending "/dataall/dev/". -/
theorem paramstore_stack_parameter_names_witness :
    ∃ rest,
      (SSMParam.mk ("/dataall/" ++ "dev" ++ "/resourcePrefix") "dataall").name
        = "/dataall/" ++ "dev" ++ ("/" ++ rest) :=
  (paramstore_stack_parameter_names "dev" "dataall" none false false
    "anonymous" false "dataallPivotRole" "extid"
    (ParamStoreStack.parameters "dev" "dataall" none false false "anonymous"
      false "dataallPivotRole" "extid") rfl).1
    (SSMParam.mk ("/dataall/" ++ "dev" ++ "/resourcePrefix") "dataall")
    (by simp [ParamStoreStack.parameters])

/-- Claim C8: constructing `OmicsPipelineStack` never reaches the
app-template write, the code.zip cleanup or the zip step: its file-operation
trace is empty at every input, and the constructor raises `AttributeError`
when no pipeline row exists, or else `TypeError` from
`self.get_engine(envname=...)` inside `get_pipeline_environment`, before any
file-system side effect. -/
theorem omics_pipeline_stack_init_fails_before_file_ops
    (target_uri : String) (pipelineLookup : String → Option Models.OmicsPipeline)
    (envname : String) (envLookup : String → Option Models.Environment)
    (envGroupResult : Except PyExc Unit) (zipExists : Bool)
    (archiveResult : Except PyExc Unit) :
    (OmicsPipelineStack.init target_uri pipelineLookup envname envLookup
      envGroupResult zipExists archiveResult).1 = []
    ∧ ((OmicsPipelineStack.init target_uri pipelineLookup envname envLookup
          envGroupResult zipExists archiveResult).2
        = .error (.attributeError "NoneType object has no attribute label")
      ∨ (OmicsPipelineStack.init target_uri pipelineLookup envname envLookup
          envGroupResult zipExists archiveResult).2
        = .error (.typeError
            "get_engine() got an unexpected keyword argument envname")) := by
  cases h : pipelineLookup target_uri with
  | none =>
    refine ⟨?_, Or.inl ?_⟩ <;>
      simp [OmicsPipelineStack.init, h]
  | some pipeline =>
    refine ⟨?_, Or.inr ?_⟩ <;>
      simp [OmicsPipelineStack.init, h,
        OmicsPipelineStack.get_pipeline_environment, OmicsPipelineStack.get_engine]
